import Mathlib

/-! Bomba de infusão: stepper sequencer, emergency latch and speed mapping.

Shallow embedding of `src/main.c` (ATmega328p firmware).  The two interrupt
handlers and one pass of the body of the `while(1)` loop of `main` are state
transformers on the registers and globals they touch.  Machine integers are
natural numbers (or integers for the signed intermediate) reduced modulo the
width of the C type at every store.
-/

namespace BombaInfusora

/-! ## Constants and the step table -/

/-- Bit number of the green LED pin in PORTB.  The header `avr/io.h` that
defines it is not part of the repository; the value is the one the source
states in its comment "(1 << PB4) -> Liga o LED Verde (bit 4)". -/
def PB4 : Nat := 4

/-- Bit number of the red LED pin in PORTB, from `avr/io.h`; the header of
`main.c` lists it as "LED VERMELHO (Travado): PB5". -/
def PB5 : Nat := 5

/-- Table `const uint8_t passos[8]`, lines 19-28 of `main.c`. -/
def passos : List Nat :=
  [0b00001000, 0b00001100, 0b00000100, 0b00000110,
   0b00000010, 0b00000011, 0b00000001, 0b00001001]

/-! ## State -/

/-- Globals and registers written by the handlers and by the main loop:
`sistema_ativo` and `indice_passo` are `volatile uint8_t`, `PORTB` is an
8-bit register and `OCR1A` a 16-bit register. -/
structure Estado where
  sistema_ativo : Nat
  indice_passo : Nat
  PORTB : Nat
  OCR1A : Nat
  deriving DecidableEq, Repr

/-- Values of the globals at their declaration (lines 31-32) together with
the `OCR1A = 20000` written by `setup` (line 57); `PORTB` is zero at reset. -/
def estadoInicial : Estado :=
  { sistema_ativo := 1, indice_passo := 0, PORTB := 0, OCR1A := 20000 }

/-! ## Interrupt handlers -/

/-- Handler `ISR(TIMER1_COMPA_vect)`, lines 63-76.  The read `passos[indice_passo]`
outside the eight entries of the array has no defined result in C and is
reported as `none`. -/
def ISR_TIMER1_COMPA_vect (s : Estado) : Option Estado :=
  if s.sistema_ativo ≠ 0 then
    match passos[s.indice_passo]? with
    | none => none
    | some p =>
      -- PORTB = (1 << PB4) | passos[indice_passo];
      let s1 := { s with PORTB := ((1 <<< PB4) ||| p) % 256 }
      -- indice_passo++;
      let s2 := { s1 with indice_passo := (s1.indice_passo + 1) % 256 }
      -- if (indice_passo > 7) indice_passo = 0;
      let s3 := if s2.indice_passo > 7 then { s2 with indice_passo := 0 } else s2
      some s3
  else
    some s

/-- Handler `ISR(INT0_vect)`, lines 79-86. -/
def ISR_INT0_vect (s : Estado) : Estado :=
  -- sistema_ativo = 0;
  let s1 := { s with sistema_ativo := 0 }
  -- PORTB = (1 << PB5);
  { s1 with PORTB := (1 <<< PB5) % 256 }

/-! ## Speed mapping of the main loop -/

/-- Sub-expression `valor_adc * 55` of line 101.  On the ATmega328p `int` has
16 bits, so the `uint16_t` operand makes the product an `unsigned int` that
wraps modulo `2^16`. -/
def produto (valor_adc : Nat) : Nat :=
  (valor_adc * 55) % 2 ^ 16

/-- Initialiser of line 101, `uint32_t velocidade = 60000 - (valor_adc * 55)`:
the literal `60000` is a 32-bit `long`, the difference is taken in `long` and
the store into `uint32_t` reduces it modulo `2^32`. -/
def velocidade_inicial (valor_adc : Nat) : Nat :=
  (((60000 : Int) - (produto valor_adc : Int)) % 2 ^ 32).toNat

/-- Two tests of lines 104-105, in the order of the source. -/
def limites (velocidade : Nat) : Nat :=
  let v1 := if velocidade < 2000 then 2000 else velocidade
  if v1 > 60000 then 60000 else v1

/-- Value of the variable `velocidade` after lines 101-105. -/
def velocidade (valor_adc : Nat) : Nat :=
  limites (velocidade_inicial valor_adc)

/-- One pass of the body of `while(1)` in `main`, lines 92-111, with the
result of the conversion (`ADC`) given as `amostra`.  The busy wait on `ADSC`
and `_delay_ms` change none of the modelled variables. -/
def main_iteracao (amostra : Nat) (s : Estado) : Estado :=
  if s.sistema_ativo ≠ 0 then
    -- uint16_t valor_adc = ADC;
    let valor_adc := amostra % 2 ^ 16
    -- OCR1A = (uint16_t)velocidade;
    { s with OCR1A := velocidade valor_adc % 2 ^ 16 }
  else
    s

/-! ## Events -/

/-- Events of the system: a compare match of timer 1, a falling edge on INT0
and one pass of the main loop with the sample it read. -/
inductive Evento where
  | Tick
  | SafetyTrip
  | LoopIteration (amostra : Nat)
  deriving DecidableEq, Repr

/-- Effect of one event. -/
def passo (s : Estado) : Evento → Option Estado
  | .Tick => ISR_TIMER1_COMPA_vect s
  | .SafetyTrip => some (ISR_INT0_vect s)
  | .LoopIteration amostra => some (main_iteracao amostra s)

/-- Effect of a finite sequence of events, first event first. -/
def executa (s : Estado) : List Evento → Option Estado
  | [] => some s
  | e :: es => (passo s e).bind fun s1 => executa s1 es

/-! ## Reference mapping of the specification -/

/-- Mapping of the specification over the integers: `60000 − rawSample * GAIN`
with `GAIN = 55`, values below 2000 raised to 2000 and values above 60000
lowered to 60000. -/
def map_spec (rawSample : Int) : Int :=
  let period := 60000 - rawSample * 55
  if period < 2000 then 2000 else if period > 60000 then 60000 else period


/-! ## The same mapping with a 32-bit `int` -/

/-- Sub-expression `valor_adc * 55` of line 101 when `int` has 32 bits: the
`uint16_t` operand is promoted to `int` and the product, at most
`65535 * 55`, is taken in `int` without wrapping. -/
def produto_int32 (valor_adc : Nat) : Nat :=
  valor_adc * 55

/-- Initialiser of line 101 when `int` has 32 bits: the difference is an
`int`, and the store into `uint32_t` reduces it modulo `2^32`. -/
def velocidade_inicial_int32 (valor_adc : Nat) : Nat :=
  (((60000 : Int) - (produto_int32 valor_adc : Int)) % 2 ^ 32).toNat

/-- Value of the variable `velocidade` after lines 101-105 when `int` has
32 bits. -/
def velocidade_int32 (valor_adc : Nat) : Nat :=
  limites (velocidade_inicial_int32 valor_adc)

/-! ## Runs and reachable states -/

/-- Events whose sample, if any, is in the range [0, 1023] of the 10-bit
converter. -/
def no_dominio : Evento → Prop
  | .LoopIteration amostra => amostra ≤ 1023
  | _ => True

/-- States reached from the initial state by some finite sequence of
events. -/
def alcancavel (s : Estado) : Prop :=
  ∃ es : List Evento, executa estadoInicial es = some s

/-- Run of `n` compare matches in a row. -/
def ticks (n : Nat) : List Evento :=
  List.replicate n Evento.Tick

/-- Values held by `PORTB` after each event of a sequence, in order. -/
def executa_saidas (s : Estado) : List Evento → Option (List Nat)
  | [] => some []
  | e :: es =>
    (passo s e).bind fun s1 => (executa_saidas s1 es).map fun ps => s1.PORTB :: ps

/-- Number of bits set among bits 0 to 7 of a byte. -/
def popcount (n : Nat) : Nat :=
  ((List.range 8).filter fun b => n.testBit b).length

/-! ## Auxiliary facts -/

theorem tick_inativo (s : Estado) (h : s.sistema_ativo = 0) :
    ISR_TIMER1_COMPA_vect s = some s := by
  simp [ISR_TIMER1_COMPA_vect, h]

theorem tick_ativo (a i p o : Nat) (ha : a ≠ 0) (hi : i ≤ 7) :
    ISR_TIMER1_COMPA_vect ⟨a, i, p, o⟩ =
      some ⟨a, (i + 1) % 8, 16 ||| passos.getD i 0, o⟩ := by
  interval_cases i <;> simp [ISR_TIMER1_COMPA_vect, ha, passos, PB4]

theorem passo_travado (s : Estado) (e : Evento)
    (h0 : s.sistema_ativo = 0) (hp : s.PORTB = 32) :
    ∃ s1, passo s e = some s1 ∧ s1.sistema_ativo = 0 ∧ s1.PORTB = 32 := by
  cases e with
  | Tick => exact ⟨s, tick_inativo s h0, h0, hp⟩
  | SafetyTrip => exact ⟨ISR_INT0_vect s, rfl, rfl, by simp [ISR_INT0_vect, PB5]⟩
  | LoopIteration amostra =>
    exact ⟨s, by simp [passo, main_iteracao, h0], h0, hp⟩

theorem executa_travado (es : List Evento) :
    ∀ s : Estado, s.sistema_ativo = 0 → s.PORTB = 32 →
      ∃ s1, executa s es = some s1 ∧ s1.sistema_ativo = 0 ∧ s1.PORTB = 32 := by
  induction es with
  | nil => intro s h0 hp; exact ⟨s, rfl, h0, hp⟩
  | cons e es ih =>
    intro s h0 hp
    obtain ⟨s1, h1, h10, h1p⟩ := passo_travado s e h0 hp
    obtain ⟨s2, h2, h20, h2p⟩ := ih s1 h10 h1p
    exact ⟨s2, by simp [executa, h1, h2], h20, h2p⟩

theorem produto_dominio (a : Nat) (h : a ≤ 1023) : produto a = a * 55 := by
  unfold produto
  exact Nat.mod_eq_of_lt (by omega)

theorem velocidade_inicial_dominio (a : Nat) (h : a ≤ 1023) :
    velocidade_inicial a = 60000 - a * 55 := by
  unfold velocidade_inicial
  rw [produto_dominio a h]
  have h1 : ((60000 : Int) - ((a * 55 : Nat) : Int)) % 2 ^ 32
      = (60000 : Int) - ((a * 55 : Nat) : Int) :=
    Int.emod_eq_of_lt (by omega) (by omega)
  rw [h1]
  omega

theorem velocidade_dominio (a : Nat) (h : a ≤ 1023) :
    velocidade a = 60000 - a * 55 := by
  unfold velocidade limites
  rw [velocidade_inicial_dominio a h]
  simp only []
  split_ifs <;> omega

/-! ## Emergency latch -/

/-- C1: after a SafetyTrip, every finite sequence of events (any number of
Ticks, further SafetyTrips and LoopIterations) runs to completion and ends
with `sistema_ativo = 0` and `PORTB = 0x20`; and from a state with
`sistema_ativo = 0` no single event produces a state with `sistema_ativo ≠ 0`. -/
theorem latch_permanente (s : Estado) (es : List Evento) :
    (∃ s1, executa s (Evento.SafetyTrip :: es) = some s1 ∧
        s1.sistema_ativo = 0 ∧ s1.PORTB = 0x20) ∧
    (∀ e : Evento, s.sistema_ativo = 0 →
        ∃ s1, passo s e = some s1 ∧ s1.sistema_ativo = 0) := by
  constructor
  · have h := executa_travado es (ISR_INT0_vect s) rfl (by simp [ISR_INT0_vect, PB5])
    simpa [executa, passo] using h
  · intro e h0
    cases e with
    | Tick => exact ⟨s, tick_inativo s h0, h0⟩
    | SafetyTrip => exact ⟨ISR_INT0_vect s, rfl, rfl⟩
    | LoopIteration amostra => exact ⟨s, by simp [passo, main_iteracao, h0], h0⟩

/-- Witness of C1 at the initial state tripped and followed by ticks and loop
passes. -/
theorem latch_permanente_witness :
    (∃ s1, executa estadoInicial
        [Evento.SafetyTrip, Evento.Tick, Evento.LoopIteration 500, Evento.Tick] = some s1 ∧
        s1.sistema_ativo = 0 ∧ s1.PORTB = 0x20) ∧
    (ISR_INT0_vect estadoInicial).sistema_ativo = 0 ∧
    (∃ s1, passo (ISR_INT0_vect estadoInicial) Evento.Tick = some s1 ∧
        s1.sistema_ativo = 0) :=
  ⟨(latch_permanente estadoInicial
      [Evento.Tick, Evento.LoopIteration 500, Evento.Tick]).1,
   rfl,
   (latch_permanente (ISR_INT0_vect estadoInicial) []).2 Evento.Tick rfl⟩

/-- C2: from every state the INT0 handler yields `sistema_ativo = 0` and
`PORTB` exactly `1 << PB5 = 0x20`, with bits 0 to 4 (motor coils and OK LED)
all zero; in particular, when a tick from a running state with index 2 has
just written `(1 << PB4) | passos[2]`, the handler leaves `PORTB = 0x20`. -/
theorem trigger_incondicional (s : Estado) :
    (ISR_INT0_vect s).sistema_ativo = 0 ∧
    (ISR_INT0_vect s).PORTB = 0x20 ∧
    (∀ b, b ≤ 4 → (ISR_INT0_vect s).PORTB.testBit b = false) ∧
    (s.sistema_ativo ≠ 0 → s.indice_passo = 2 →
      ∃ p s1, passos[2]? = some p ∧ ISR_TIMER1_COMPA_vect s = some s1 ∧
        s1.PORTB = (1 <<< PB4) ||| p ∧
        (ISR_INT0_vect s1).sistema_ativo = 0 ∧ (ISR_INT0_vect s1).PORTB = 0x20) := by
  refine ⟨rfl, by simp [ISR_INT0_vect, PB5], ?_, ?_⟩
  · have h : (ISR_INT0_vect s).PORTB = 32 := by simp [ISR_INT0_vect, PB5]
    rw [h]
    decide
  · intro ha hi
    obtain ⟨a, i, p, o⟩ := s
    simp only at ha hi
    subst hi
    refine ⟨4, _, by simp [passos], tick_ativo a 2 p o ha (by omega), ?_, rfl, ?_⟩
    · simp [passos, PB4]
    · simp [ISR_INT0_vect, PB5]

/-- Witness of C2 at a running state with index 2. -/
theorem trigger_incondicional_witness :
    (⟨1, 2, 0x1C, 20000⟩ : Estado).sistema_ativo ≠ 0 ∧
    (⟨1, 2, 0x1C, 20000⟩ : Estado).indice_passo = 2 ∧
    ∃ p s1, passos[2]? = some p ∧
      ISR_TIMER1_COMPA_vect ⟨1, 2, 0x1C, 20000⟩ = some s1 ∧
      s1.PORTB = (1 <<< PB4) ||| p ∧
      (ISR_INT0_vect s1).sistema_ativo = 0 ∧ (ISR_INT0_vect s1).PORTB = 0x20 :=
  ⟨by decide, rfl, (trigger_incondicional ⟨1, 2, 0x1C, 20000⟩).2.2.2 (by decide) rfl⟩

/-! ## Step sequencer -/

/-- C3: in a running state with index `i ≤ 7` the timer handler returns a
state whose `PORTB` is `(1 << PB4) | passos[i] = 0x10 | passos[i]` for the
index `i` held on entry, and whose index is the incremented one; the entry
written is not the entry at the incremented index. -/
theorem advance_saida (s : Estado) (hrun : s.sistema_ativo ≠ 0)
    (hi : s.indice_passo ≤ 7) :
    ∃ p s1, passos[s.indice_passo]? = some p ∧
      ISR_TIMER1_COMPA_vect s = some s1 ∧
      s1.PORTB = (1 <<< PB4) ||| p ∧ s1.PORTB = 0x10 ||| p ∧
      s1.indice_passo = (if s.indice_passo + 1 > 7 then 0 else s.indice_passo + 1) ∧
      passos[s1.indice_passo]? ≠ some p := by
  obtain ⟨a, i, p, o⟩ := s
  simp only at hrun hi
  refine ⟨passos.getD i 0, _, ?_, tick_ativo a i p o hrun hi, ?_, rfl, ?_, ?_⟩
  · interval_cases i <;> simp [passos]
  · simp [PB4]
  · interval_cases i <;> simp
  · interval_cases i <;> simp [passos]

/-- Witness of C3 at the initial state. -/
theorem advance_saida_witness :
    estadoInicial.sistema_ativo ≠ 0 ∧ estadoInicial.indice_passo ≤ 7 ∧
    ∃ p s1, passos[estadoInicial.indice_passo]? = some p ∧
      ISR_TIMER1_COMPA_vect estadoInicial = some s1 ∧
      s1.PORTB = (1 <<< PB4) ||| p ∧ s1.PORTB = 0x10 ||| p ∧
      s1.indice_passo =
        (if estadoInicial.indice_passo + 1 > 7 then 0
         else estadoInicial.indice_passo + 1) ∧
      passos[s1.indice_passo]? ≠ some p :=
  ⟨by decide, by decide, advance_saida estadoInicial (by decide) (by decide)⟩

/-- C4: in a running state with index `i ≤ 7` the timer handler leaves the
index equal to `(i + 1) mod 8`; from index 7 it leaves 0. -/
theorem advance_indice (s : Estado) (hrun : s.sistema_ativo ≠ 0)
    (hi : s.indice_passo ≤ 7) :
    ∃ s1, ISR_TIMER1_COMPA_vect s = some s1 ∧
      s1.indice_passo = (s.indice_passo + 1) % 8 ∧
      (s.indice_passo = 7 → s1.indice_passo = 0) := by
  obtain ⟨a, i, p, o⟩ := s
  simp only at hrun hi
  refine ⟨_, tick_ativo a i p o hrun hi, rfl, ?_⟩
  intro h7
  simp only at h7
  subst h7
  rfl

/-- Witness of C4 at index 7, where the index wraps to 0. -/
theorem advance_indice_witness :
    (⟨1, 7, 0x11, 20000⟩ : Estado).sistema_ativo ≠ 0 ∧
    (⟨1, 7, 0x11, 20000⟩ : Estado).indice_passo ≤ 7 ∧
    ∃ s1, ISR_TIMER1_COMPA_vect ⟨1, 7, 0x11, 20000⟩ = some s1 ∧
      s1.indice_passo = ((⟨1, 7, 0x11, 20000⟩ : Estado).indice_passo + 1) % 8 ∧
      ((⟨1, 7, 0x11, 20000⟩ : Estado).indice_passo = 7 → s1.indice_passo = 0) :=
  ⟨by decide, by decide, advance_indice ⟨1, 7, 0x11, 20000⟩ (by decide) (by decide)⟩

/-- C5: with `sistema_ativo = 0` the timer handler returns the state it was
given: `PORTB`, `indice_passo`, `sistema_ativo` and `OCR1A` are unchanged. -/
theorem advance_travado (s : Estado) (h : s.sistema_ativo = 0) :
    ISR_TIMER1_COMPA_vect s = some s ∧
    ∀ s1, ISR_TIMER1_COMPA_vect s = some s1 →
      s1.PORTB = s.PORTB ∧ s1.indice_passo = s.indice_passo ∧
      s1.sistema_ativo = s.sistema_ativo ∧ s1.OCR1A = s.OCR1A := by
  have h1 := tick_inativo s h
  refine ⟨h1, ?_⟩
  intro s1 hs1
  rw [h1] at hs1
  cases hs1
  exact ⟨rfl, rfl, rfl, rfl⟩

/-- Witness of C5 at the state left by the INT0 handler. -/
theorem advance_travado_witness :
    (ISR_INT0_vect estadoInicial).sistema_ativo = 0 ∧
    ISR_TIMER1_COMPA_vect (ISR_INT0_vect estadoInicial)
      = some (ISR_INT0_vect estadoInicial) :=
  ⟨rfl, (advance_travado (ISR_INT0_vect estadoInicial) rfl).1⟩

/-! ## Speed mapping -/

/-- C6: for every sample in [0, 1023] the value of `velocidade` after the
subtraction and the two limit tests lies in [2000, 60000], and so does the
value one pass of the main loop writes to `OCR1A` in a running state. -/
theorem velocidade_limitada (a : Nat) (h : a ≤ 1023) :
    (2000 ≤ velocidade a ∧ velocidade a ≤ 60000) ∧
    ∀ s : Estado, s.sistema_ativo ≠ 0 →
      (main_iteracao a s).OCR1A = velocidade a ∧
      2000 ≤ (main_iteracao a s).OCR1A ∧ (main_iteracao a s).OCR1A ≤ 60000 := by
  have hv := velocidade_dominio a h
  have ha : a % 2 ^ 16 = a := Nat.mod_eq_of_lt (by omega)
  refine ⟨by omega, ?_⟩
  intro s hs
  have ho : (main_iteracao a s).OCR1A = velocidade a := by
    simp only [main_iteracao, hs, ne_eq, not_false_eq_true, if_true, ha]
    exact Nat.mod_eq_of_lt (by omega)
  rw [ho]
  omega

/-- Witness of C6 at the largest sample and the initial state. -/
theorem velocidade_limitada_witness :
    1023 ≤ 1023 ∧ (2000 ≤ velocidade 1023 ∧ velocidade 1023 ≤ 60000) ∧
    estadoInicial.sistema_ativo ≠ 0 ∧
    (main_iteracao 1023 estadoInicial).OCR1A = velocidade 1023 :=
  ⟨by decide, (velocidade_limitada 1023 (by decide)).1, by decide,
   ((velocidade_limitada 1023 (by decide)).2 estadoInicial (by decide)).1⟩

/-- C7: for every sample `a` in [0, 1023] the value computed by the code equals
the integer clamp of `60000 - 55 * a` to [2000, 60000]; neither the 16-bit
product nor the 32-bit difference wraps there.  Instances: sample 0 gives
60000 and sample 500 gives 32500. -/
theorem velocidade_refina_map (a : Nat) (h : a ≤ 1023) :
    (velocidade a : Int) = map_spec a ∧
    map_spec a = max 2000 (min (60000 - 55 * (a : Int)) 60000) ∧
    produto a = a * 55 ∧
    (velocidade_inicial a : Int) = 60000 - 55 * (a : Int) ∧
    velocidade 0 = 60000 ∧ velocidade 500 = 32500 := by
  have h0 : velocidade 0 = 60000 := by rw [velocidade_dominio 0 (by omega)]
  have h500 : velocidade 500 = 32500 := by rw [velocidade_dominio 500 (by omega)]
  refine ⟨?_, ?_, produto_dominio a h, ?_, h0, h500⟩
  · rw [velocidade_dominio a h]
    unfold map_spec
    simp only []
    split_ifs <;> omega
  · unfold map_spec
    simp only []
    split_ifs <;> omega
  · rw [velocidade_inicial_dominio a h]
    omega

/-- Witness of C7 at sample 500. -/
theorem velocidade_refina_map_witness :
    500 ≤ 1023 ∧ (velocidade 500 : Int) = map_spec (500 : Nat) :=
  ⟨by decide, (velocidade_refina_map 500 (by decide)).1⟩

/-- C8: the mapping is non-increasing on [0, 1023]: a larger sample never
gives a larger period. -/
theorem velocidade_monotona (a b : Nat) (hab : a ≤ b) (hb : b ≤ 1023) :
    velocidade b ≤ velocidade a := by
  rw [velocidade_dominio a (by omega), velocidade_dominio b hb]
  omega

/-- Witness of C8 at samples 100 and 900. -/
theorem velocidade_monotona_witness :
    100 ≤ 900 ∧ 900 ≤ 1023 ∧ velocidade 900 ≤ velocidade 100 :=
  ⟨by decide, by decide, velocidade_monotona 100 900 (by decide) (by decide)⟩

/-- C9: at sample 1023, the top of the sample domain, the code leaves
`velocidade = 60000 - 1023 * 55 = 3735` and writes 3735 to `OCR1A`, not the
2000 that the comment of line 100 ("Lento (60000) -> Rápido (2000)") gives for
the fast end: neither limit test fires there, and no sample in [0, 1023]
brings the period below 3735. -/
theorem velocidade_1023 :
    (velocidade 1023 = 3735 ∧ velocidade_inicial 1023 = 3735 ∧ limites 3735 = 3735) ∧
    velocidade 1023 ≠ 2000 ∧
    (main_iteracao 1023 estadoInicial).OCR1A = 3735 ∧
    velocidade 0 = 60000 ∧
    (∀ a : Nat, a ≤ 1023 → 3735 ≤ velocidade a ∧ velocidade a ≠ 2000) := by
  have hv : velocidade 1023 = 3735 := by rw [velocidade_dominio 1023 (by omega)]
  have h0 : velocidade 0 = 60000 := by rw [velocidade_dominio 0 (by omega)]
  refine ⟨⟨hv, ?_, by decide⟩, ?_, ?_, h0, ?_⟩
  · rw [velocidade_inicial_dominio 1023 (by omega)]
  · rw [hv]
    decide
  · have ho : (main_iteracao 1023 estadoInicial).OCR1A = velocidade 1023 % 2 ^ 16 := rfl
    rw [ho, hv]
    norm_num
  · intro a ha
    rw [velocidade_dominio a ha]
    omega

/-- Witness of C9 at sample 1000, whose period 5000 is still above 3735. -/
theorem velocidade_1023_witness :
    1000 ≤ 1023 ∧ 3735 ≤ velocidade 1000 ∧ velocidade 1000 ≠ 2000 :=
  ⟨by decide, velocidade_1023.2.2.2.2 1000 (by decide)⟩

/-! ## Scenario A -/

/-- C10 as stated fails: three ticks from the initial state (running, index 0)
do not leave `PORTB = (1 << PB4) | passos[3]`. -/
theorem tres_ticks_nao_passos3 :
    passos[3]? = some 6 ∧
    ¬ ∃ s1, executa estadoInicial [Evento.Tick, Evento.Tick, Evento.Tick] = some s1 ∧
      s1.indice_passo = 3 ∧ s1.PORTB = (1 <<< PB4) ||| 6 := by
  refine ⟨rfl, ?_⟩
  rintro ⟨s1, h, -, hp⟩
  have h3 : executa estadoInicial [Evento.Tick, Evento.Tick, Evento.Tick]
      = some ⟨1, 3, 20, 20000⟩ := by decide
  rw [h3] at h
  cases h
  revert hp
  decide

/-- C10 amended: from a running state with index 0, three ticks in a row leave
index 3 and `PORTB = (1 << PB4) | passos[2]`, the entry of the index that was
current when the third tick began. -/
theorem tres_ticks (s : Estado) (hrun : s.sistema_ativo ≠ 0) (hi : s.indice_passo = 0) :
    ∃ p s1, passos[2]? = some p ∧
      executa s [Evento.Tick, Evento.Tick, Evento.Tick] = some s1 ∧
      s1.indice_passo = 3 ∧ s1.PORTB = (1 <<< PB4) ||| p := by
  obtain ⟨a, i, p, o⟩ := s
  simp only at hrun hi
  subst hi
  refine ⟨4, ⟨a, 3, 20, o⟩, rfl, ?_, rfl, by simp [PB4]⟩
  simp [executa, passo, tick_ativo a 0 _ o hrun (by omega),
    tick_ativo a 1 _ o hrun (by omega), tick_ativo a 2 _ o hrun (by omega), passos]

/-- Witness of C10 amended at the initial state. -/
theorem tres_ticks_witness :
    estadoInicial.sistema_ativo ≠ 0 ∧ estadoInicial.indice_passo = 0 ∧
    ∃ p s1, passos[2]? = some p ∧
      executa estadoInicial [Evento.Tick, Evento.Tick, Evento.Tick] = some s1 ∧
      s1.indice_passo = 3 ∧ s1.PORTB = (1 <<< PB4) ||| p :=
  ⟨by decide, rfl, tres_ticks estadoInicial (by decide) rfl⟩

/-! ## Auxiliary facts on runs -/

theorem limites_intervalo (v : Nat) : 2000 ≤ limites v ∧ limites v ≤ 60000 := by
  unfold limites
  simp only []
  split_ifs <;> omega

theorem passo_total (s : Estado) (e : Evento) (hi : s.indice_passo ≤ 7) :
    ∃ s1, passo s e = some s1 ∧ s1.indice_passo ≤ 7 := by
  obtain ⟨a, i, p, o⟩ := s
  simp only at hi
  cases e with
  | Tick =>
    by_cases ha : a = 0
    · exact ⟨⟨a, i, p, o⟩, tick_inativo _ ha, hi⟩
    · exact ⟨_, tick_ativo a i p o ha hi, Nat.le_of_lt_succ (Nat.mod_lt _ (by omega))⟩
  | SafetyTrip => exact ⟨_, rfl, hi⟩
  | LoopIteration amostra =>
    refine ⟨_, rfl, ?_⟩
    unfold main_iteracao
    split_ifs <;> exact hi

theorem executa_total (es : List Evento) :
    ∀ s : Estado, s.indice_passo ≤ 7 →
      ∃ s1, executa s es = some s1 ∧ s1.indice_passo ≤ 7 := by
  induction es with
  | nil => intro s hi; exact ⟨s, rfl, hi⟩
  | cons e es ih =>
    intro s hi
    obtain ⟨s1, h1, hi1⟩ := passo_total s e hi
    obtain ⟨s2, h2, hi2⟩ := ih s1 hi1
    exact ⟨s2, by simp [executa, h1, h2], hi2⟩

theorem tick_quadro (s s1 : Estado) (h : ISR_TIMER1_COMPA_vect s = some s1) :
    s1.sistema_ativo = s.sistema_ativo ∧ s1.OCR1A = s.OCR1A := by
  by_cases ha : s.sistema_ativo = 0
  · rw [tick_inativo s ha] at h
    cases h
    exact ⟨rfl, rfl⟩
  · cases hp : passos[s.indice_passo]? with
    | none => simp [ISR_TIMER1_COMPA_vect, ha, hp] at h
    | some q =>
      simp only [ISR_TIMER1_COMPA_vect, ha, hp, ne_eq, not_false_eq_true, if_true,
        Option.some.injEq] at h
      split_ifs at h <;> (subst h; exact ⟨rfl, rfl⟩)

theorem iteracao_OCR1A (amostra : Nat) (s : Estado) (hs : s.sistema_ativo ≠ 0) :
    (main_iteracao amostra s).OCR1A = velocidade (amostra % 2 ^ 16) ∧
    2000 ≤ (main_iteracao amostra s).OCR1A ∧ (main_iteracao amostra s).OCR1A ≤ 60000 := by
  have hv := limites_intervalo (velocidade_inicial (amostra % 2 ^ 16))
  have hm : velocidade (amostra % 2 ^ 16) % 2 ^ 16 = velocidade (amostra % 2 ^ 16) :=
    Nat.mod_eq_of_lt (by unfold velocidade; omega)
  have ho : (main_iteracao amostra s).OCR1A = velocidade (amostra % 2 ^ 16) := by
    simp only [main_iteracao, hs, ne_eq, not_false_eq_true, if_true, hm]
  rw [ho]
  exact ⟨rfl, hv⟩

theorem iteracao_inativo (amostra : Nat) (s : Estado) (hs : s.sistema_ativo = 0) :
    main_iteracao amostra s = s := by
  simp [main_iteracao, hs]

theorem passo_OCR1A (s s1 : Estado) (e : Evento) (h : passo s e = some s1)
    (hlo : 2000 ≤ s.OCR1A) (hhi : s.OCR1A ≤ 60000) :
    2000 ≤ s1.OCR1A ∧ s1.OCR1A ≤ 60000 := by
  cases e with
  | Tick =>
    rw [(tick_quadro s s1 h).2]
    exact ⟨hlo, hhi⟩
  | SafetyTrip =>
    cases h
    exact ⟨hlo, hhi⟩
  | LoopIteration amostra =>
    simp only [passo, Option.some.injEq] at h
    subst h
    by_cases hs : s.sistema_ativo = 0
    · rw [iteracao_inativo amostra s hs]
      exact ⟨hlo, hhi⟩
    · exact (iteracao_OCR1A amostra s hs).2

theorem executa_OCR1A (es : List Evento) :
    ∀ s s1 : Estado, executa s es = some s1 → 2000 ≤ s.OCR1A → s.OCR1A ≤ 60000 →
      2000 ≤ s1.OCR1A ∧ s1.OCR1A ≤ 60000 := by
  induction es with
  | nil =>
    intro s s1 h hlo hhi
    cases h
    exact ⟨hlo, hhi⟩
  | cons e es ih =>
    intro s s1 h hlo hhi
    cases hp : passo s e with
    | none => simp [executa, hp] at h
    | some s2 =>
      simp only [executa, hp, Option.some_bind] at h
      obtain ⟨h2lo, h2hi⟩ := passo_OCR1A s s2 e hp hlo hhi
      exact ih s2 s1 h h2lo h2hi

theorem alcancavel_indice (s : Estado) (h : alcancavel s) : s.indice_passo ≤ 7 := by
  obtain ⟨es, hes⟩ := h
  obtain ⟨s1, h1, hi1⟩ := executa_total es estadoInicial (by decide)
  rw [hes] at h1
  cases h1
  exact hi1

/-! ## Idempotence, period invariant and frames -/

/-- C11: the INT0 handler is idempotent: running it a second time returns
the state left by the first run, so `sistema_ativo` (0), `PORTB` (0x20),
`indice_passo` and `OCR1A` are all unchanged by the second run. -/
theorem trigger_idempotente (s : Estado) :
    ISR_INT0_vect (ISR_INT0_vect s) = ISR_INT0_vect s ∧
    (ISR_INT0_vect (ISR_INT0_vect s)).sistema_ativo = 0 ∧
    (ISR_INT0_vect (ISR_INT0_vect s)).PORTB = 0x20 ∧
    (ISR_INT0_vect (ISR_INT0_vect s)).indice_passo = (ISR_INT0_vect s).indice_passo ∧
    (ISR_INT0_vect (ISR_INT0_vect s)).OCR1A = (ISR_INT0_vect s).OCR1A ∧
    (ISR_INT0_vect (ISR_INT0_vect s)).indice_passo = s.indice_passo ∧
    (ISR_INT0_vect (ISR_INT0_vect s)).OCR1A = s.OCR1A := by
  refine ⟨rfl, rfl, ?_, rfl, rfl, rfl, rfl⟩
  simp [ISR_INT0_vect, PB5]

/-- C12: `OCR1A` lies in [2000, 60000] in the initial state (20000), every
event whose sample is in [0, 1023] preserves that, every sequence of such
events from the initial state runs to completion in a state where it holds,
and the cast `(uint16_t)velocidade` does not truncate for samples in
[0, 1023]. -/
theorem periodo_invariante :
    (estadoInicial.OCR1A = 20000 ∧
      2000 ≤ estadoInicial.OCR1A ∧ estadoInicial.OCR1A ≤ 60000) ∧
    (∀ (s s1 : Estado) (e : Evento), no_dominio e →
      2000 ≤ s.OCR1A → s.OCR1A ≤ 60000 → passo s e = some s1 →
      2000 ≤ s1.OCR1A ∧ s1.OCR1A ≤ 60000) ∧
    (∀ es : List Evento, (∀ e ∈ es, no_dominio e) →
      ∃ s1, executa estadoInicial es = some s1 ∧
        2000 ≤ s1.OCR1A ∧ s1.OCR1A ≤ 60000) ∧
    (∀ a : Nat, a ≤ 1023 →
      velocidade a < 2 ^ 16 ∧ velocidade a % 2 ^ 16 = velocidade a) := by
  refine ⟨⟨rfl, by decide, by decide⟩, ?_, ?_, ?_⟩
  · intro s s1 e _ hlo hhi h
    exact passo_OCR1A s s1 e h hlo hhi
  · intro es _
    obtain ⟨s1, h1, _⟩ := executa_total es estadoInicial (by decide)
    exact ⟨s1, h1, executa_OCR1A es estadoInicial s1 h1 (by decide) (by decide)⟩
  · intro a _
    have hv := limites_intervalo (velocidade_inicial a)
    have hlt : velocidade a < 2 ^ 16 := by unfold velocidade; omega
    exact ⟨hlt, Nat.mod_eq_of_lt hlt⟩

/-- Witness of C12: a tick, a loop pass with sample 500 and a trip from the
initial state. -/
theorem periodo_invariante_witness :
    (∀ e ∈ [Evento.Tick, Evento.LoopIteration 500, Evento.SafetyTrip], no_dominio e) ∧
    (∃ s1, executa estadoInicial
        [Evento.Tick, Evento.LoopIteration 500, Evento.SafetyTrip] = some s1 ∧
        2000 ≤ s1.OCR1A ∧ s1.OCR1A ≤ 60000) ∧
    (500 ≤ 1023 ∧ velocidade 500 % 2 ^ 16 = velocidade 500) :=
  have hd : ∀ e ∈ [Evento.Tick, Evento.LoopIteration 500, Evento.SafetyTrip],
      no_dominio e := by
    intro e he
    simp only [List.mem_cons, List.mem_singleton, List.not_mem_nil, or_false] at he
    rcases he with rfl | rfl | rfl <;> simp [no_dominio]
  ⟨hd, periodo_invariante.2.2.1 _ hd, by decide,
    (periodo_invariante.2.2.2 500 (by decide)).2⟩

/-- C13: (a) a tick that returns leaves `sistema_ativo` and `OCR1A` unchanged
(and it does return when the system is latched or the index is at most 7);
(b) the INT0 handler leaves `indice_passo` and `OCR1A` unchanged; (c) a loop
pass leaves `indice_passo`, `sistema_ativo` and `PORTB` unchanged, and with
`sistema_ativo = 0` it returns the state it was given. -/
theorem quadro_escritor_unico (s : Estado) (amostra : Nat) :
    (∀ s1, ISR_TIMER1_COMPA_vect s = some s1 →
      s1.sistema_ativo = s.sistema_ativo ∧ s1.OCR1A = s.OCR1A) ∧
    (s.sistema_ativo = 0 ∨ s.indice_passo ≤ 7 →
      ∃ s1, ISR_TIMER1_COMPA_vect s = some s1) ∧
    ((ISR_INT0_vect s).indice_passo = s.indice_passo ∧
      (ISR_INT0_vect s).OCR1A = s.OCR1A) ∧
    ((main_iteracao amostra s).indice_passo = s.indice_passo ∧
      (main_iteracao amostra s).sistema_ativo = s.sistema_ativo ∧
      (main_iteracao amostra s).PORTB = s.PORTB) ∧
    (s.sistema_ativo = 0 → main_iteracao amostra s = s) := by
  refine ⟨fun s1 h => tick_quadro s s1 h, ?_, ⟨rfl, rfl⟩, ?_,
    iteracao_inativo amostra s⟩
  · rintro (h0 | hi)
    · exact ⟨s, tick_inativo s h0⟩
    · obtain ⟨s1, h1, _⟩ := passo_total s Evento.Tick hi
      exact ⟨s1, h1⟩
  · unfold main_iteracao
    split_ifs <;> exact ⟨rfl, rfl, rfl⟩

/-- Witness of C13: a tick in the initial state, and a loop pass in the state
left by the INT0 handler. -/
theorem quadro_escritor_unico_witness :
    (ISR_TIMER1_COMPA_vect estadoInicial = some ⟨1, 1, 24, 20000⟩ ∧
      (⟨1, 1, 24, 20000⟩ : Estado).sistema_ativo = estadoInicial.sistema_ativo ∧
      (⟨1, 1, 24, 20000⟩ : Estado).OCR1A = estadoInicial.OCR1A) ∧
    ((ISR_INT0_vect estadoInicial).sistema_ativo = 0 ∧
      main_iteracao 500 (ISR_INT0_vect estadoInicial) = ISR_INT0_vect estadoInicial) :=
  ⟨⟨by decide, (quadro_escritor_unico estadoInicial 0).1 ⟨1, 1, 24, 20000⟩ (by decide)⟩,
   rfl, (quadro_escritor_unico (ISR_INT0_vect estadoInicial) 500).2.2.2.2 rfl⟩

/-- C14: every sequence of events from the initial state (`indice_passo = 0`,
`sistema_ativo = 1`) runs to completion, and in every state so reached
`indice_passo ≤ 7`, the read `passos[indice_passo]` is inside the table and
the timer handler returns a state. -/
theorem indice_no_intervalo (es : List Evento) :
    (estadoInicial.indice_passo = 0 ∧ estadoInicial.sistema_ativo = 1) ∧
    (∃ s1, executa estadoInicial es = some s1 ∧ s1.indice_passo ≤ 7) ∧
    (∀ s : Estado, alcancavel s →
      s.indice_passo ≤ 7 ∧ s.indice_passo < passos.length ∧
      (∃ p, passos[s.indice_passo]? = some p) ∧
      (∃ s1, ISR_TIMER1_COMPA_vect s = some s1)) := by
  refine ⟨⟨rfl, rfl⟩, executa_total es estadoInicial (by decide), ?_⟩
  intro s hs
  have hi := alcancavel_indice s hs
  have hlen : s.indice_passo < passos.length := by
    have : passos.length = 8 := rfl
    omega
  refine ⟨hi, hlen, ⟨passos[s.indice_passo], List.getElem?_eq_getElem hlen⟩, ?_⟩
  obtain ⟨s1, h1, _⟩ := passo_total s Evento.Tick hi
  exact ⟨s1, h1⟩

/-- Witness of C14 at the state reached by two ticks. -/
theorem indice_no_intervalo_witness :
    alcancavel ⟨1, 2, 28, 20000⟩ ∧
    (⟨1, 2, 28, 20000⟩ : Estado).indice_passo ≤ 7 ∧
    (∃ s1, ISR_TIMER1_COMPA_vect ⟨1, 2, 28, 20000⟩ = some s1) :=
  have hr : alcancavel ⟨1, 2, 28, 20000⟩ := ⟨[Evento.Tick, Evento.Tick], by decide⟩
  ⟨hr, ((indice_no_intervalo []).2.2 _ hr).1, ((indice_no_intervalo []).2.2 _ hr).2.2.2⟩

/-! ## Output word -/

theorem passo_led (s s1 : Estado) (e : Evento) (h : passo s e = some s1)
    (hi : s.indice_passo ≤ 7)
    (h0 : s.sistema_ativo = 0 → s.PORTB = 32)
    (h1 : s.sistema_ativo ≠ 0 → s.PORTB.testBit PB5 = false) :
    (s1.sistema_ativo = 0 → s1.PORTB = 32) ∧
    (s1.sistema_ativo ≠ 0 → s1.PORTB.testBit PB5 = false) := by
  obtain ⟨a, i, p, o⟩ := s
  simp only at hi h0 h1
  cases e with
  | Tick =>
    by_cases ha : a = 0
    · rw [show passo _ Evento.Tick = ISR_TIMER1_COMPA_vect _ from rfl,
        tick_inativo _ ha] at h
      cases h
      exact ⟨h0, h1⟩
    · rw [show passo _ Evento.Tick = ISR_TIMER1_COMPA_vect _ from rfl,
        tick_ativo a i p o ha hi] at h
      cases h
      refine ⟨fun h => absurd h ha, fun _ => ?_⟩
      simp only
      interval_cases i <;> decide
  | SafetyTrip =>
    cases h
    exact ⟨fun _ => by simp [ISR_INT0_vect, PB5], fun h => absurd rfl h⟩
  | LoopIteration amostra =>
    simp only [passo, Option.some.injEq] at h
    subst h
    unfold main_iteracao
    split_ifs <;> exact ⟨h0, h1⟩

theorem executa_led (es : List Evento) :
    ∀ s : Estado, s.indice_passo ≤ 7 →
      (s.sistema_ativo = 0 → s.PORTB = 32) →
      (s.sistema_ativo ≠ 0 → s.PORTB.testBit PB5 = false) →
      ∃ s1, executa s es = some s1 ∧
        (s1.sistema_ativo = 0 → s1.PORTB = 32) ∧
        (s1.sistema_ativo ≠ 0 → s1.PORTB.testBit PB5 = false) := by
  induction es with
  | nil => intro s _ h0 h1; exact ⟨s, rfl, h0, h1⟩
  | cons e es ih =>
    intro s hi h0 h1
    obtain ⟨s1, hp, hi1⟩ := passo_total s e hi
    obtain ⟨h10, h11⟩ := passo_led s s1 e hp hi h0 h1
    obtain ⟨s2, h2, h20, h21⟩ := ih s1 hi1 h10 h11
    exact ⟨s2, by simp [executa, hp, h2], h20, h21⟩

/-- C15: the table has 8 entries, each below 16 and non-zero; the word the
timer handler writes in a running state has bit 4 set, bits 5, 6 and 7 clear
and its low four bits equal to the table entry; and in every state reached
from the initial state bit 5 of `PORTB` is set exactly when
`sistema_ativo = 0`, in which case `PORTB = 0x20` and bits 0 to 3 are zero.
The equivalence also holds after every run from any running state with index
at most 7 and bit 5 of `PORTB` clear. -/
theorem palavra_saida :
    (passos.length = 8 ∧ ∀ p ∈ passos, p < 16 ∧ p ≠ 0) ∧
    (∀ s : Estado, s.sistema_ativo ≠ 0 → s.indice_passo ≤ 7 →
      ∃ p s1, passos[s.indice_passo]? = some p ∧
        ISR_TIMER1_COMPA_vect s = some s1 ∧
        s1.PORTB.testBit PB4 = true ∧ s1.PORTB.testBit PB5 = false ∧
        s1.PORTB.testBit 6 = false ∧ s1.PORTB.testBit 7 = false ∧
        s1.PORTB % 16 = p ∧ s1.PORTB < 256) ∧
    (∀ s : Estado, alcancavel s →
      (s.PORTB.testBit PB5 = true ↔ s.sistema_ativo = 0) ∧
      (s.sistema_ativo = 0 →
        s.PORTB = 0x20 ∧ ∀ b, b ≤ 3 → s.PORTB.testBit b = false)) ∧
    (∀ (s0 : Estado) (es : List Evento), s0.sistema_ativo ≠ 0 →
      s0.indice_passo ≤ 7 → s0.PORTB.testBit PB5 = false →
      ∃ s1, executa s0 es = some s1 ∧
        (s1.PORTB.testBit PB5 = true ↔ s1.sistema_ativo = 0)) := by
  refine ⟨⟨rfl, by decide⟩, ?_, ?_, ?_⟩
  rotate_right
  · intro s0 es hrun hi hb
    obtain ⟨s1, h1, h10, h11⟩ := executa_led es s0 hi (fun h => absurd h hrun)
      (fun _ => hb)
    refine ⟨s1, h1, ?_⟩
    by_cases hz : s1.sistema_ativo = 0
    · rw [h10 hz]
      exact ⟨fun _ => hz, fun _ => by decide⟩
    · exact ⟨fun h => absurd ((h11 hz).symm.trans h) (by decide), fun h => absurd h hz⟩
  · intro s hrun hi
    obtain ⟨a, i, p, o⟩ := s
    simp only at hrun hi
    refine ⟨passos.getD i 0, _, ?_, tick_ativo a i p o hrun hi, ?_⟩
    · interval_cases i <;> rfl
    · simp only
      interval_cases i <;> decide
  · intro s hs
    obtain ⟨es, hes⟩ := hs
    obtain ⟨s1, h1, h10, h11⟩ := executa_led es estadoInicial (by decide)
      (by decide) (by decide)
    rw [hes] at h1
    cases h1
    by_cases hz : s.sistema_ativo = 0
    · have hp := h10 hz
      rw [hp]
      exact ⟨⟨fun _ => hz, fun _ => by decide⟩, fun _ => ⟨rfl, by decide⟩⟩
    · have hb := h11 hz
      exact ⟨⟨fun h => absurd (hb.symm.trans h) (by decide), fun h => absurd h hz⟩,
        fun h => absurd h hz⟩

/-- Witness of C15: a tick in the initial state, and the reachable state left
by a tick followed by a trip. -/
theorem palavra_saida_witness :
    (estadoInicial.sistema_ativo ≠ 0 ∧ estadoInicial.indice_passo ≤ 7 ∧
      ∃ p s1, passos[estadoInicial.indice_passo]? = some p ∧
        ISR_TIMER1_COMPA_vect estadoInicial = some s1 ∧
        s1.PORTB.testBit PB4 = true ∧ s1.PORTB.testBit PB5 = false ∧
        s1.PORTB.testBit 6 = false ∧ s1.PORTB.testBit 7 = false ∧
        s1.PORTB % 16 = p ∧ s1.PORTB < 256) ∧
    (alcancavel ⟨0, 1, 32, 20000⟩ ∧
      ((⟨0, 1, 32, 20000⟩ : Estado).PORTB.testBit PB5 = true ↔
        (⟨0, 1, 32, 20000⟩ : Estado).sistema_ativo = 0)) :=
  have hr : alcancavel ⟨0, 1, 32, 20000⟩ :=
    ⟨[Evento.Tick, Evento.SafetyTrip], by decide⟩
  ⟨⟨by decide, by decide, palavra_saida.2.1 estadoInicial (by decide) (by decide)⟩,
   hr, (palavra_saida.2.2.1 _ hr).1⟩

/-! ## Runs of ticks -/

theorem executa_ticks (a o : Nat) (ha : a ≠ 0) (n : Nat) :
    ∀ i p : Nat, i ≤ 7 →
      executa ⟨a, i, p, o⟩ (ticks (n + 1)) =
        some ⟨a, (i + n + 1) % 8, 16 ||| passos.getD ((i + n) % 8) 0, o⟩ := by
  induction n with
  | zero =>
    intro i p hi
    have hm : i % 8 = i := Nat.mod_eq_of_lt (by omega)
    simp [ticks, List.replicate, executa, passo, tick_ativo a i p o ha hi, hm]
  | succ n ih =>
    intro i p hi
    have hlt : (i + 1) % 8 ≤ 7 := Nat.le_of_lt_succ (Nat.mod_lt _ (by omega))
    have h1 : ((i + 1) % 8 + n + 1) % 8 = (i + (n + 1) + 1) % 8 := by omega
    have h2 : ((i + 1) % 8 + n) % 8 = (i + (n + 1)) % 8 := by omega
    have hstep : executa ⟨a, i, p, o⟩ (ticks (n + 1 + 1)) =
        executa ⟨a, (i + 1) % 8, 16 ||| passos.getD i 0, o⟩ (ticks (n + 1)) := by
      simp [ticks, List.replicate, executa, passo, tick_ativo a i p o ha hi]
    rw [hstep, ih ((i + 1) % 8) _ hlt, h1, h2]

theorem saidas_ticks (a o : Nat) (ha : a ≠ 0) (n : Nat) :
    ∀ i p : Nat, i ≤ 7 →
      executa_saidas ⟨a, i, p, o⟩ (ticks n) =
        some ((List.range n).map fun k => 16 ||| passos.getD ((i + k) % 8) 0) := by
  induction n with
  | zero => intro i p _; rfl
  | succ n ih =>
    intro i p hi
    have hlt : (i + 1) % 8 ≤ 7 := Nat.le_of_lt_succ (Nat.mod_lt _ (by omega))
    have hm : i % 8 = i := Nat.mod_eq_of_lt (by omega)
    have hstep : executa_saidas ⟨a, i, p, o⟩ (ticks (n + 1)) =
        (executa_saidas ⟨a, (i + 1) % 8, 16 ||| passos.getD i 0, o⟩ (ticks n)).map
          fun ps => (16 ||| passos.getD i 0) :: ps := by
      simp [ticks, List.replicate, executa_saidas, passo, tick_ativo a i p o ha hi]
    have hk : ∀ k : Nat, ((i + 1) % 8 + k) % 8 = (i + (k + 1)) % 8 := by
      intro k
      omega
    rw [hstep, ih ((i + 1) % 8) _ hlt, List.range_succ_eq_map]
    simp only [Option.map_some', List.map_cons, List.map_map, Nat.add_zero, hm, hk]
    rfl

theorem saidas_rotacao (i : Nat) (hi : i ≤ 7) :
    ((List.range 8).map fun k => 16 ||| passos.getD ((i + k) % 8) 0) =
      (passos.rotate i).map fun q => (1 <<< PB4) ||| q := by
  interval_cases i <;> decide

/-- C17: from a running state with index `i ≤ 7`, `n ≥ 1` ticks in a row
leave index `(i + n) mod 8` and `PORTB = (1 << PB4) | passos[(i + n - 1) mod 8]`,
one entry behind the index; 8 ticks bring the index back to `i`, and the
words they write are the table entries in table order starting at entry `i`,
each entry once. -/
theorem n_ticks (s : Estado) (n : Nat) (hrun : s.sistema_ativo ≠ 0)
    (hi : s.indice_passo ≤ 7) (hn : 1 ≤ n) :
    (∃ p s1, passos[(s.indice_passo + n - 1) % 8]? = some p ∧
      executa s (ticks n) = some s1 ∧
      s1.indice_passo = (s.indice_passo + n) % 8 ∧
      s1.PORTB = (1 <<< PB4) ||| p) ∧
    (∃ s8, executa s (ticks 8) = some s8 ∧ s8.indice_passo = s.indice_passo) ∧
    executa_saidas s (ticks 8) =
      some ((passos.rotate s.indice_passo).map fun q => (1 <<< PB4) ||| q) ∧
    (passos.rotate s.indice_passo).Perm passos ∧ passos.Nodup := by
  obtain ⟨a, i, p, o⟩ := s
  simp only at hrun hi
  obtain ⟨m, rfl⟩ : ∃ m, n = m + 1 := ⟨n - 1, by omega⟩
  have hlen : (i + m) % 8 < passos.length := Nat.mod_lt _ (by decide)
  refine ⟨⟨passos.getD ((i + m) % 8) 0, _, ?_, executa_ticks a o hrun m i p hi,
      rfl, by simp [PB4]⟩,
    ⟨_, executa_ticks a o hrun 7 i p hi, ?_⟩, ?_, List.rotate_perm _ _, by decide⟩
  · simp only [Nat.add_sub_cancel, ← Nat.add_assoc]
    rw [List.getD_eq_getElem?_getD, List.getElem?_eq_getElem hlen]
    rfl
  · simp only
    omega
  · rw [saidas_ticks a o hrun 8 i p hi]
    exact congrArg some (saidas_rotacao i hi)

/-- Witness of C17: five ticks from index 6. -/
theorem n_ticks_witness :
    (⟨1, 6, 0x13, 20000⟩ : Estado).sistema_ativo ≠ 0 ∧
    (⟨1, 6, 0x13, 20000⟩ : Estado).indice_passo ≤ 7 ∧ 1 ≤ 5 ∧
    ∃ p s1, passos[((⟨1, 6, 0x13, 20000⟩ : Estado).indice_passo + 5 - 1) % 8]? = some p ∧
      executa ⟨1, 6, 0x13, 20000⟩ (ticks 5) = some s1 ∧
      s1.indice_passo = ((⟨1, 6, 0x13, 20000⟩ : Estado).indice_passo + 5) % 8 ∧
      s1.PORTB = (1 <<< PB4) ||| p :=
  ⟨by decide, by decide, by decide,
   (n_ticks ⟨1, 6, 0x13, 20000⟩ 5 (by decide) (by decide) (by decide)).1⟩

/-! ## Shape of the step table -/

/-- C18: the 8 entries of `passos` are pairwise distinct, each has one or two
bits set, and each entry differs from the next one in exactly one bit,
including entry 7 against entry 0. -/
theorem tabela_meio_passo :
    passos.length = 8 ∧ passos.Nodup ∧
    (∀ p ∈ passos, popcount p = 1 ∨ popcount p = 2) ∧
    (∀ i, i ≤ 7 →
      ∃ p q, passos[i]? = some p ∧ passos[(i + 1) % 8]? = some q ∧
        popcount (p ^^^ q) = 1) := by
  refine ⟨rfl, by decide, by decide, ?_⟩
  intro i hi
  interval_cases i
  · exact ⟨8, 12, rfl, rfl, by decide⟩
  · exact ⟨12, 4, rfl, rfl, by decide⟩
  · exact ⟨4, 6, rfl, rfl, by decide⟩
  · exact ⟨6, 2, rfl, rfl, by decide⟩
  · exact ⟨2, 3, rfl, rfl, by decide⟩
  · exact ⟨3, 1, rfl, rfl, by decide⟩
  · exact ⟨1, 9, rfl, rfl, by decide⟩
  · exact ⟨9, 8, rfl, rfl, by decide⟩

/-- Witness of C18 at the wrap-around from entry 7 to entry 0. -/
theorem tabela_meio_passo_witness :
    7 ≤ 7 ∧ ∃ p q, passos[7]? = some p ∧ passos[(7 + 1) % 8]? = some q ∧
      popcount (p ^^^ q) = 1 :=
  ⟨by decide, tabela_meio_passo.2.2.2 7 (by decide)⟩

/-! ## The limits outside the sample domain -/

/-- C19: for every 16-bit `valor_adc` the value left in `velocidade` lies in
[2000, 60000] and the cast to `uint16_t` keeps it, both with the product
taken in 16-bit unsigned arithmetic and with the product taken in a 32-bit
`int` (where it does not overflow); the value a loop pass writes to `OCR1A`
in a running state is that value. -/
theorem limite_total (a : Nat) (ha : a ≤ 65535) :
    (2000 ≤ velocidade a ∧ velocidade a ≤ 60000 ∧
      velocidade a % 2 ^ 16 = velocidade a) ∧
    (produto_int32 a < 2 ^ 31 ∧
      2000 ≤ velocidade_int32 a ∧ velocidade_int32 a ≤ 60000 ∧
      velocidade_int32 a % 2 ^ 16 = velocidade_int32 a) ∧
    (∀ s : Estado, s.sistema_ativo ≠ 0 →
      (main_iteracao a s).OCR1A = velocidade a ∧
      2000 ≤ (main_iteracao a s).OCR1A ∧ (main_iteracao a s).OCR1A ≤ 60000) := by
  have h16 := limites_intervalo (velocidade_inicial a)
  have h32 := limites_intervalo (velocidade_inicial_int32 a)
  have hm : a % 2 ^ 16 = a := Nat.mod_eq_of_lt (by omega)
  refine ⟨⟨h16.1, h16.2, Nat.mod_eq_of_lt ?_⟩, ⟨?_, h32.1, h32.2, Nat.mod_eq_of_lt ?_⟩, ?_⟩
  · unfold velocidade
    omega
  · unfold produto_int32
    omega
  · unfold velocidade_int32
    omega
  · intro s hs
    have h := iteracao_OCR1A a s hs
    rw [hm] at h
    exact h

/-- Witness of C19 at the largest 16-bit value. -/
theorem limite_total_witness :
    65535 ≤ 65535 ∧
    (2000 ≤ velocidade 65535 ∧ velocidade 65535 ≤ 60000 ∧
      velocidade 65535 % 2 ^ 16 = velocidade 65535) ∧
    (2000 ≤ velocidade_int32 65535 ∧ velocidade_int32 65535 ≤ 60000) ∧
    estadoInicial.sistema_ativo ≠ 0 ∧
    (main_iteracao 65535 estadoInicial).OCR1A = velocidade 65535 :=
  ⟨by decide, (limite_total 65535 (by decide)).1,
   ⟨(limite_total 65535 (by decide)).2.1.2.1, (limite_total 65535 (by decide)).2.1.2.2.1⟩,
   by decide, ((limite_total 65535 (by decide)).2.2 estadoInicial (by decide)).1⟩

/-- C20: outside [0, 1023] the mapping is not monotone: sample 1055 gives
`60000 - 58025 = 1975`, raised to 2000, while the larger sample 1091 gives
`60000 - 60005 = -5`, stored as 4294967291 and lowered by the upper limit
test to 60000. -/
theorem nao_monotona_fora_do_dominio :
    ((60000 : Int) - (produto 1055 : Int) = 1975 ∧ velocidade_inicial 1055 = 1975 ∧
      velocidade 1055 = 2000) ∧
    ((60000 : Int) - (produto 1091 : Int) = -5 ∧ velocidade_inicial 1091 = 4294967291 ∧
      velocidade 1091 = 60000) ∧
    (1055 ≤ 1091 ∧ velocidade 1055 < velocidade 1091) ∧
    ¬ (∀ a b : Nat, a ≤ b → velocidade b ≤ velocidade a) := by
  have hp1 : produto 1055 = 58025 := by decide
  have hp2 : produto 1091 = 60005 := by decide
  have hi1 : velocidade_inicial 1055 = 1975 := by
    unfold velocidade_inicial
    rw [hp1]
    decide
  have hi2 : velocidade_inicial 1091 = 4294967291 := by
    unfold velocidade_inicial
    rw [hp2]
    decide
  have hv1 : velocidade 1055 = 2000 := by
    unfold velocidade
    rw [hi1]
    decide
  have hv2 : velocidade 1091 = 60000 := by
    unfold velocidade
    rw [hi2]
    decide
  refine ⟨⟨by rw [hp1]; decide, hi1, hv1⟩, ⟨by rw [hp2]; decide, hi2, hv2⟩,
    ⟨by decide, by rw [hv1, hv2]; decide⟩, ?_⟩
  intro h
  have h1 := h 1055 1091 (by decide)
  rw [hv1, hv2] at h1
  exact absurd h1 (by decide)

end BombaInfusora
